import Mathlib

/-!
Shallow embedding of the Car AI multimodal search orchestration layer
(src/core/car_search_core.py, src/indexers/index_text_data.py,
src/indexers/index_image_data.py, src/ui/car_search_ui.py).

External collaborators (the vector store, the HTTP client, the filesystem,
the image decoder) are modelled as explicit environments of functions;
a call that can raise in Python is modelled as returning an `Option`
(`none` = the call raised), and the Python `try/except` structure is
reproduced in the control flow of the embedded functions.
-/

namespace CarSearch

/-- Abstract byte content of a fetched or read file. -/
abbrev Bytes := List Nat

/-- Abstract decoded image object (PIL.Image). -/
structure Img where
  imgId : Nat
  deriving DecidableEq

/-- Python `str.split(sep)` on the character list of a string: splitting on
every separator occurrence, so `n` separators yield `n + 1` pieces, and the
empty string yields one empty piece. -/
def pySplitChars (sep : Char) : List Char → List (List Char)
  | [] => [[]]
  | c :: cs =>
    let rest := pySplitChars sep cs
    if c = sep then [] :: rest
    else
      match rest with
      | [] => [[c]]
      | piece :: more => (c :: piece) :: more

/-- Python `str.split(sep)` for a single-character separator. -/
def pySplit (s : String) (sep : Char) : List String :=
  (pySplitChars sep s.data).map String.mk

/-- Python `str.strip()` on a character list: drop leading and trailing
whitespace. -/
def pyStripChars (l : List Char) : List Char :=
  ((l.dropWhile Char.isWhitespace).reverse.dropWhile Char.isWhitespace).reverse

/-- Python `str.strip()`. -/
def pyStrip (s : String) : String := String.mk (pyStripChars s.data)

/-- Python `s.startswith(pre)`. -/
def pyStartsWith (s pre : String) : Bool := pre.data.isPrefixOf s.data

/-- Python `str.lower()`. -/
def pyLower (s : String) : String := String.mk (s.data.map Char.toLower)

/-- Representation of the stored `image_urls` field as it comes back from the
vector store: a scalar string, a Python list, or an ndarray/Series. -/
inductive UrlField where
  | scalar (s : String)
  | plain (l : List String)
  | arr (l : List String)
  deriving DecidableEq

/-- A result row as returned by the store search (`to_pandas` row). -/
structure Row where
  label : String
  car_type : String
  fuel_type : String
  car_info : String
  image_urls : UrlField
  deriving DecidableEq

/-- A deduplicated result record as built by `search_using_text_with_fts`
(lines 163-169 of car_search_core.py). -/
structure ResultRec where
  label : String
  car_type : String
  fuel_type : String
  car_info : String
  image_urls : List String
  deriving DecidableEq

/-- Normalization of the `image_urls` field (car_search_core.py lines 156-161):
ndarray/Series are converted with `tolist()`, lists are kept, and any other
value is wrapped in a singleton list when truthy, else replaced by `[]`. -/
def normalizeUrls : UrlField → List String
  | .arr l => l
  | .plain l => l
  | .scalar s => if s ≠ "" then [s] else []

/-- Projection of a search row to the dictionary appended to `unique_results`. -/
def rowToResult (r : Row) : ResultRec :=
  { label := r.label, car_type := r.car_type, fuel_type := r.fuel_type,
    car_info := r.car_info, image_urls := normalizeUrls r.image_urls }

/-- The dedup loop of `search_using_text_with_fts` (lines 148-169): iterate the
rows, skip a row whose label was already seen, otherwise record its label as
seen and append its normalized projection. -/
def dedupLoop : List Row → List String → List ResultRec
  | [], _ => []
  | r :: rs, seen =>
    if seen.contains r.label then dedupLoop rs seen
    else rowToResult r :: dedupLoop rs (r.label :: seen)

/-- The `unique_results` list built by `search_using_text_with_fts` from the
raw result rows (starting from an empty `seen_labels` set). -/
def uniqueResults (rows : List Row) : List ResultRec :=
  dedupLoop rows []

/-- Environment of store search calls available to the orchestrator.
Each call returns `none` when the underlying library raised, otherwise the
list of result rows (already capped by the `limit` argument). -/
structure SearchEnv where
  fts : String → Nat → Option (List Row)
  vec : String → Nat → Option (List Row)

/-- Embedding of `search_using_text_with_fts` (car_search_core.py lines
123-175): full-text search first; on an empty (but non-raising) result set,
retry as a vector search with the same limit; return `none` (Python `None`)
on an empty final result set or on any raised exception, otherwise the
deduplicated record list. -/
def search_using_text_with_fts (env : SearchEnv) (query : String) (limit : Nat) :
    Option (List ResultRec) :=
  match env.fts query limit with
  | Option.none => Option.none
  | Option.some ftsRes =>
    let results : Option (List Row) :=
      if ftsRes.isEmpty then env.vec query limit else Option.some ftsRes
    match results with
    | Option.none => Option.none
    | Option.some rs =>
      if rs.isEmpty then Option.none
      else Option.some (uniqueResults rs)

/-- Specification-level description of "keep exactly the first row per label
in first-seen order": keep the head row and drop every later row carrying the
same label, recursively. -/
def firstPerLabel : List Row → List Row
  | [] => []
  | r :: rs => r :: firstPerLabel (rs.filter (fun r2 => r2.label != r.label))
termination_by l => l.length
decreasing_by
  simp only [List.length_cons]
  exact Nat.lt_succ_of_le (List.length_filter_le _ _)

/-- Re-injection of a deduplicated record into the row shape, as would happen
if the dedup step were applied to its own output (the `image_urls` field of an
output record is always a plain list). -/
def ResultRec.toRow (rec : ResultRec) : Row :=
  { label := rec.label, car_type := rec.car_type, fuel_type := rec.fuel_type,
    car_info := rec.car_info, image_urls := .plain rec.image_urls }

/-- An argument passed to `is_valid_image_path` or `load_image_from_url_or_path`:
Python `None`, a string, or a collection (list) of strings. -/
inductive PathInput where
  | null
  | str (s : String)
  | coll (l : List String)
  deriving DecidableEq

/-- Python truthiness of a path input: `None` and empty strings/collections
are falsy. -/
def truthy : PathInput → Bool
  | .null => false
  | .str s => s ≠ ""
  | .coll l => l ≠ []

/-- Timeout passed to the HEAD existence probe
(car_search_core.py line 228: `requests.head(url_or_path, timeout=5)`). -/
def head_probe_timeout : Option Nat := Option.some 5

/-- Timeout passed to the core content-fetch GET
(car_search_core.py line 262: `requests.get(url_or_path, timeout=10)`). -/
def content_fetch_timeout : Option Nat := Option.some 10

/-- Timeout passed to the image indexer download
(index_image_data.py line 91: `requests.get(single_path)` — no timeout
argument is supplied). -/
def image_indexer_fetch_timeout : Option Nat := Option.none

/-- Environment of HTTP and filesystem calls available to the image helpers.
`head url t` returns the status code of a HEAD request with timeout `t`
(`none` = the request raised); `get url t` returns status code and body of a
GET request (`none` = the request raised); `decodeBytes` and `openFile`
return `none` when PIL fails to decode. -/
structure WebEnv where
  head : String → Option Nat → Option Nat
  get : String → Option Nat → Option (Nat × Bytes)
  pathExists : String → Bool
  decodeBytes : Bytes → Option Img
  openFile : String → Option Img

/-- URL test of car_search_core.py lines 225 and 260:
`url_or_path.startswith(("http://", "https://"))`. -/
def is_url (s : String) : Bool :=
  pyStartsWith s "http://" || pyStartsWith s "https://"

/-- Body of `is_valid_image_path` after normalization (car_search_core.py
lines 225-234): for a URL, probe with a HEAD request and accept exactly
status 200, treating a raised request as invalid; for a local path, check
filesystem existence. -/
def is_valid_image_path_str (env : WebEnv) (s : String) : Bool :=
  if is_url s then
    match env.head s head_probe_timeout with
    | Option.some code => code == 200
    | Option.none => false
  else env.pathExists s

/-- Embedding of `is_valid_image_path` (car_search_core.py lines 203-234):
falsy input is invalid; a collection is normalized to its first element
(an empty collection is invalid); then the string is checked as URL or
local path. The `.null` and `.coll []` arms are unreachable past the
truthiness guard but are written out to mirror the source lines 216-219. -/
def is_valid_image_path (env : WebEnv) (input : PathInput) : Bool :=
  if truthy input = false then false
  else
    match input with
    | .null => false
    | .coll [] => false
    | .coll (s :: _) => is_valid_image_path_str env s
    | .str s => is_valid_image_path_str env s

/-- String branch of `load_image_from_url_or_path` (car_search_core.py lines
260-283): for a URL, GET with a 10 second timeout; a non-200 status or an
undecodable body (inner `try`) yields `none`; for a local path, a missing
file yields `none`, otherwise the file is opened (inner `try` yields `none`
on decode failure). -/
def load_image_from_str (env : WebEnv) (s : String) : Option Img :=
  if is_url s then
    match env.get s content_fetch_timeout with
    | Option.none => Option.none
    | Option.some (code, content) =>
      if code == 200 then env.decodeBytes content
      else Option.none
  else
    if env.pathExists s then env.openFile s
    else Option.none

/-- Embedding of `load_image_from_url_or_path` (car_search_core.py lines
236-286): the whole body runs inside a `try` whose handler returns `None`,
so a raised GET (modelled as `env.get ... = none`) yields `none`; a non-200
status yields `none`; undecodable bytes yield `none`; a missing local file
yields `none`; otherwise the decoded image is returned. -/
def load_image_from_url_or_path (env : WebEnv) (input : PathInput) : Option Img :=
  if truthy input = false then Option.none
  else
    match input with
    | .null => Option.none
    | .coll [] => Option.none
    | .coll (s :: _) => load_image_from_str env s
    | .str s => load_image_from_str env s

/-- A CSV row as read by either indexer: columns `car_label, car_info,
car_type, fuel_type, image_url` (the image indexer reads only the first,
second and last). -/
structure CsvRow where
  car_label : String
  car_info : String
  car_type : String
  fuel_type : String
  image_url : String
  deriving DecidableEq

/-- Environment of the image indexer: `get url t` is `requests.get` with
timeout `t` (`none` = raised), `readFile` returns a local file content
(`none` = open/read raised), `verify` is whether `Image.open(...).verify()`
succeeds on the bytes. -/
structure IndexerEnv where
  get : String → Option Nat → Option (Nat × Bytes)
  pathExists : String → Bool
  readFile : String → Option Bytes
  verify : Bytes → Bool

/-- A record collected into `image_data` by the image indexer
(index_image_data.py lines 104-109). -/
structure ImageRecord where
  label : String
  car_info : String
  image_uri : String
  image_bytes : Bytes
  deriving DecidableEq

/-- Per-path body of the image indexer loop (index_image_data.py lines
81-114): strip the path, skip it when empty; inside a `try`, a path starting
with `"http"` is downloaded and its content bound to `img_bytes` — the
verification and append statements sit in the local-path `else` branch, so
the HTTP branch ends without appending anything; a local path is read,
verified, and appended, with a missing file or any raised exception skipping
the path. Returns the records appended for this path. -/
def processSinglePath (env : IndexerEnv) (car_model car_info : String)
    (single_path : String) : List ImageRecord :=
  let p := pyStrip single_path
  if p = "" then []
  else if pyStartsWith p "http" then
    match env.get p image_indexer_fetch_timeout with
    | Option.none => []
    | Option.some _ => []
  else
    if env.pathExists p then
      match env.readFile p with
      | Option.none => []
      | Option.some bytes =>
        if env.verify bytes then
          [{ label := car_model, car_info := car_info,
             image_uri := p, image_bytes := bytes }]
        else []
    else []

/-- Per-row body of the image indexer (index_image_data.py lines 73-114):
split the `image_url` column on commas and process each piece. -/
def processImageRow (env : IndexerEnv) (row : CsvRow) : List ImageRecord :=
  (pySplit row.image_url ',').flatMap
    (processSinglePath env row.car_label row.car_info)

/-- Outcome of `process_images_from_csv`: the returned count, the batch
appended to the table (`none` = no `table.add` call), and whether the
full-text index was rebuilt. -/
structure ImageIndexOutcome where
  count : Nat
  added : Option (List ImageRecord)
  ftsRebuilt : Bool
  deriving DecidableEq

/-- Embedding of `process_images_from_csv` (index_image_data.py lines
56-128): collect valid records from every row; when at least one record was
collected, add the batch, rebuild the full-text index and return the record
count, otherwise return 0 with no store interaction. -/
def process_images_from_csv (env : IndexerEnv) (rows : List CsvRow) :
    ImageIndexOutcome :=
  let image_data := rows.flatMap (processImageRow env)
  if image_data.isEmpty then
    { count := 0, added := Option.none, ftsRebuilt := false }
  else
    { count := image_data.length, added := Option.some image_data,
      ftsRebuilt := true }

/-- Split-and-trim of the text indexer (index_text_data.py line 85):
`[url.strip() for url in image_url_string.split(',') if url.strip()]`. -/
def split_and_trim (s : String) : List String :=
  ((pySplit s ',').map pyStrip).filter (fun u => u ≠ "")

/-- A record collected into `processed_data` by the text indexer
(index_text_data.py lines 92-98). -/
structure TextRecord where
  label : String
  car_type : String
  fuel_type : String
  car_info : String
  image_urls : List String
  deriving DecidableEq

/-- Per-row body of the text indexer (index_text_data.py lines 77-98): split
and trim the `image_url` column; a row yielding zero non-empty entries is
skipped, otherwise one record is produced. -/
def processTextRow (row : CsvRow) : Option TextRecord :=
  let image_urls := split_and_trim row.image_url
  if image_urls = [] then Option.none
  else Option.some
    { label := row.car_label, car_type := row.car_type,
      fuel_type := row.fuel_type, car_info := row.car_info,
      image_urls := image_urls }

/-- Outcome of `process_data_from_csv`: the returned count, the batch
appended (`none` = no `table.add` call), whether vector-index creation was
attempted, and whether the full-text index was rebuilt. -/
structure TextIndexOutcome where
  count : Nat
  added : Option (List TextRecord)
  vectorIndexAttempted : Bool
  ftsRebuilt : Bool
  deriving DecidableEq

/-- Embedding of `process_data_from_csv` (index_text_data.py lines 60-127):
collect one record per non-skipped row; when at least one record was
collected, add the batch, attempt vector-index creation and rebuild the
full-text index, returning the record count; otherwise return 0 with no
store interaction at all. -/
def process_data_from_csv (rows : List CsvRow) : TextIndexOutcome :=
  let processed_data := rows.filterMap processTextRow
  if processed_data.isEmpty then
    { count := 0, added := Option.none,
      vectorIndexAttempted := false, ftsRebuilt := false }
  else
    { count := processed_data.length, added := Option.some processed_data,
      vectorIndexAttempted := true, ftsRebuilt := true }

/-- HTTP method of a network call site. -/
inductive Method where
  | head
  | get
  deriving DecidableEq

/-- A network call site of the application: its method, the timeout it
passes (`none` = no timeout argument), and the number of attempts the code
makes per invocation (every site is a single straight-line `requests.*`
call with no retry loop, so each records one attempt). -/
structure NetworkCall where
  method : Method
  timeout : Option Nat
  attempts : Nat
  deriving DecidableEq

/-- The existence-probe HEAD call of `is_valid_image_path`
(car_search_core.py line 228). -/
def probe_call : NetworkCall :=
  { method := Method.head, timeout := head_probe_timeout, attempts := 1 }

/-- The content-fetch GET call of `load_image_from_url_or_path`
(car_search_core.py line 262). -/
def fetch_call : NetworkCall :=
  { method := Method.get, timeout := content_fetch_timeout, attempts := 1 }

/-- The image-download GET call of `process_images_from_csv`
(index_image_data.py line 91). -/
def indexer_fetch_call : NetworkCall :=
  { method := Method.get, timeout := image_indexer_fetch_timeout, attempts := 1 }

/-- All network call sites in the application code. -/
def app_network_calls : List NetworkCall :=
  [probe_call, fetch_call, indexer_fetch_call]

/-- Decoded image metadata as seen by `validate_image` (PIL format name). -/
structure ImgData where
  format : String
  deriving DecidableEq

/-- An uploaded file as seen by `validate_image`: the result of
`Image.open` + `verify` (`.error e` = the attempt raised with message `e`)
and the file size in bytes. -/
structure UploadedFile where
  opened : Except String ImgData
  size : Nat

/-- Formats accepted by `validate_image` (car_search_ui.py line 423). -/
def supported_formats : List String := ["jpeg", "jpg", "png"]

/-- Size-limit rejection message of `validate_image` (car_search_ui.py
line 428). -/
def size_limit_message : String :=
  "Image file is too large. Please upload images smaller than 5MB."

/-- Unsupported-format rejection message of `validate_image`
(car_search_ui.py line 424). -/
def unsupported_format_message (fmt : String) : String :=
  "Unsupported image format: " ++ fmt ++ ". Please upload JPEG or PNG images only."

/-- Invalid-file rejection message of `validate_image` (car_search_ui.py
line 432), parameterized by the exception text. -/
def invalid_image_message (e : String) : String :=
  "Invalid image file: " ++ e

/-- Embedding of `validate_image` (car_search_ui.py lines 406-432): the
whole body runs inside a `try` whose handler returns
`(False, "Invalid image file: ...")`; a decodable image with a format
outside the allow-list is rejected with the format message; a file larger
than 5MB is rejected with the size message; otherwise `(True, None)`. -/
def validate_image (f : UploadedFile) : Bool × Option String :=
  match f.opened with
  | Except.error e => (false, Option.some (invalid_image_message e))
  | Except.ok img =>
    if (supported_formats.contains (pyLower img.format)) = false then
      (false, Option.some (unsupported_format_message img.format))
    else if f.size > 5 * 1024 * 1024 then
      (false, Option.some size_limit_message)
    else (true, Option.none)

/-- A store interaction of the image tab. -/
inductive StoreAction where
  | imageSearch (path : String)
  deriving DecidableEq

/-- Session state carried across UI reruns (`st.session_state`). -/
structure TabState where
  temp_image_path : Option String
  deriving DecidableEq

/-- One rerun of the image-search tab of `main` (car_search_ui.py lines
529-618), parameterized by `save`, the temp-file conversion and save of
lines 550-575 (`none` = it raised, clearing the temp path). With no upload,
or after a failed validation, `uploaded_file` is `None`, so the search
button is rendered disabled and no search can run; after a successful save
the search runs only when the button is clicked and a temp path is set.
Returns the new state, the store actions performed, and the error message
shown, if any. -/
def image_tab_step (save : UploadedFile → Option String)
    (upload : Option UploadedFile) (st0 : TabState) (clicked : Bool) :
    TabState × List StoreAction × Option String :=
  match upload with
  | Option.none => (st0, [], Option.none)
  | Option.some f =>
    match validate_image f with
    | (false, msg) => (st0, [], msg)
    | (true, _) =>
      match save f with
      | Option.none =>
        ({ temp_image_path := Option.none }, [],
         Option.some "Error processing image")
      | Option.some path =>
        let st1 : TabState := { temp_image_path := Option.some path }
        if clicked then
          match st1.temp_image_path with
          | Option.some p => (st1, [StoreAction.imageSearch p], Option.none)
          | Option.none => (st1, [], Option.none)
        else (st1, [], Option.none)

/-- Store actions performed by an image-tab rerun. -/
def tabActions (out : TabState × List StoreAction × Option String) :
    List StoreAction :=
  out.2.1

/-- A concrete search result row used to instantiate the orchestrator. -/
def c1row : Row :=
  { label := "Tata Nexon", car_type := "SUV", fuel_type := "Petrol",
    car_info := "compact SUV", image_urls := UrlField.plain ["http://x/n.jpg"] }

/-- A concrete search environment whose full-text search returns an empty
result set and whose vector search returns one row. -/
def c1env : SearchEnv :=
  { fts := fun _ _ => Option.some [],
    vec := fun _ _ => Option.some [c1row] }

/-- A concrete result row with a scalar `image_urls` field. -/
def c3row : Row :=
  { label := "Swift", car_type := "Hatchback", fuel_type := "Petrol",
    car_info := "city car", image_urls := UrlField.scalar "http://x/s.jpg" }

/-- A concrete search environment whose full-text search returns the same
row twice. -/
def c3env : SearchEnv :=
  { fts := fun _ _ => Option.some [c3row, c3row],
    vec := fun _ _ => Option.none }

/-- A concrete web environment: one URL that probes 404, one whose requests
raise, one local file that exists, everything else missing or undecodable. -/
def c45env : WebEnv :=
  { head := fun u _ => if u = "http://gone/a.jpg" then Option.some 404
      else Option.none,
    get := fun u _ => if u = "http://gone/a.jpg" then Option.some (404, [0])
      else if u = "http://ok/a.jpg" then Option.some (200, [1]) else Option.none,
    pathExists := fun p => p == "cars/a.jpg",
    decodeBytes := fun _ => Option.none,
    openFile := fun _ => Option.none }

/-- A CSV row whose single image path is an HTTP URL. -/
def c2rowHttp : CsvRow :=
  { car_label := "Swift", car_info := "hatchback", car_type := "Hatchback",
    fuel_type := "Petrol", image_url := "http://x/a.jpg" }

/-- The same CSV row with a local image path instead. -/
def c2rowLocal : CsvRow :=
  { car_label := "Swift", car_info := "hatchback", car_type := "Hatchback",
    fuel_type := "Petrol", image_url := "cars/a.jpg" }

/-- An indexer environment where every HTTP fetch succeeds with status 200
and decodable bytes, and the one local file exists, reads, and verifies. -/
def c2env : IndexerEnv :=
  { get := fun _ _ => Option.some (200, [1, 2, 3]),
    pathExists := fun p => p == "cars/a.jpg",
    readFile := fun p => if p = "cars/a.jpg" then Option.some [1, 2, 3]
      else Option.none,
    verify := fun _ => true }

/-- The image record the indexer builds for the local-path row. -/
def c2rec : ImageRecord :=
  { label := "Swift", car_info := "hatchback",
    image_uri := "cars/a.jpg", image_bytes := [1, 2, 3] }

/-- A CSV row whose `image_url` holds two comma-separated URLs. -/
def c6rowPair : CsvRow :=
  { car_label := "A", car_info := "i", car_type := "t", fuel_type := "f",
    image_url := "http://x/a.jpg, http://x/b.jpg" }

/-- A CSV row whose `image_url` is empty. -/
def c6rowEmpty : CsvRow :=
  { car_label := "B", car_info := "i", car_type := "t", fuel_type := "f",
    image_url := "" }

/-- The text record the indexer builds for the two-URL row. -/
def c6rec : TextRecord :=
  { label := "A", car_type := "t", fuel_type := "f", car_info := "i",
    image_urls := ["http://x/a.jpg", "http://x/b.jpg"] }

/-- A CSV row whose `image_url` holds only separators and whitespace. -/
def c9row : CsvRow :=
  { car_label := "A", car_info := "i", car_type := "t", fuel_type := "f",
    image_url := " , " }

/-- A supported-format upload one megabyte over the size ceiling. -/
def c8file : UploadedFile :=
  { opened := Except.ok { format := "PNG" }, size := 6 * 1024 * 1024 }

/-- An upload whose open/verify attempt raises. -/
def c10bad : UploadedFile :=
  { opened := Except.error "cannot identify image file", size := 10 }

/-- A decodable upload of an unsupported format. -/
def c10gif : UploadedFile :=
  { opened := Except.ok { format := "GIF" }, size := 10 }

theorem firstPerLabel_nil : firstPerLabel [] = [] := by
  simp [firstPerLabel]

theorem firstPerLabel_cons (r : Row) (rs : List Row) :
    firstPerLabel (r :: rs)
      = r :: firstPerLabel (rs.filter (fun r2 => r2.label != r.label)) := by
  rw [firstPerLabel]

theorem subset_firstPerLabel :
    ∀ (l : List Row) (x : Row), x ∈ firstPerLabel l → x ∈ l := by
  intro l
  induction l using firstPerLabel.induct with
  | case1 =>
    intro x hx
    rw [firstPerLabel_nil] at hx
    exact absurd hx (List.not_mem_nil x)
  | case2 r rs ih =>
    intro x hx
    rw [firstPerLabel_cons] at hx
    rcases List.mem_cons.mp hx with h | h
    · exact h ▸ List.mem_cons_self r rs
    · exact List.mem_cons_of_mem r (List.mem_of_mem_filter (ih x h))

theorem nodup_labels_firstPerLabel :
    ∀ (l : List Row), ((firstPerLabel l).map Row.label).Nodup := by
  intro l
  induction l using firstPerLabel.induct with
  | case1 => rw [firstPerLabel_nil]; exact List.nodup_nil
  | case2 r rs ih =>
    rw [firstPerLabel_cons]
    rw [List.map_cons, List.nodup_cons]
    refine ⟨?_, ih⟩
    intro hmem
    rcases List.mem_map.mp hmem with ⟨x, hx, hlab⟩
    have hxf := subset_firstPerLabel _ x hx
    have hp := List.of_mem_filter hxf
    simp only [bne_iff_ne, ne_eq] at hp
    exact hp hlab

theorem dedupLoop_eq_firstPerLabel (rows : List Row) : ∀ (seen : List String),
    dedupLoop rows seen
      = (firstPerLabel (rows.filter
          (fun r => !(seen.contains r.label)))).map rowToResult := by
  induction rows with
  | nil =>
    intro seen
    simp [dedupLoop, firstPerLabel_nil]
  | cons r rs ih =>
    intro seen
    cases hsc : seen.contains r.label with
    | true =>
      have hmem : r.label ∈ seen := by simpa using hsc
      have hl : dedupLoop (r :: rs) seen = dedupLoop rs seen := by
        simp [dedupLoop, hmem]
      have hfil : (r :: rs).filter (fun x => !(seen.contains x.label))
          = rs.filter (fun x => !(seen.contains x.label)) := by
        simp [List.filter_cons, hmem]
      rw [hl, hfil, ih seen]
    | false =>
      have hmem : r.label ∉ seen := by simpa using hsc
      have hl : dedupLoop (r :: rs) seen
          = rowToResult r :: dedupLoop rs (r.label :: seen) := by
        simp [dedupLoop, hmem]
      have hfil : (r :: rs).filter (fun x => !(seen.contains x.label))
          = r :: rs.filter (fun x => !(seen.contains x.label)) := by
        simp [List.filter_cons, hmem]
      have hff : (rs.filter (fun x => !(seen.contains x.label))).filter
            (fun r2 => r2.label != r.label)
          = rs.filter (fun x => !((r.label :: seen).contains x.label)) := by
        rw [List.filter_filter]
        apply List.filter_congr
        intro x _
        by_cases hx : x.label = r.label <;> by_cases hs : x.label ∈ seen <;>
          simp [List.contains_cons, bne, hx, hs]
      rw [hl, hfil, firstPerLabel_cons, List.map_cons, ih (r.label :: seen), hff]

theorem uniqueResults_eq_firstPerLabel (rows : List Row) :
    uniqueResults rows = (firstPerLabel rows).map rowToResult := by
  rw [uniqueResults, dedupLoop_eq_firstPerLabel rows []]
  congr 2
  have hfun : (fun r : Row => !(List.contains ([] : List String) r.label))
      = fun _ => true := by
    funext x
    rfl
  rw [hfun, List.filter_true]

theorem uniqueResults_labels_nodup (rows : List Row) :
    ((uniqueResults rows).map ResultRec.label).Nodup := by
  rw [uniqueResults_eq_firstPerLabel, List.map_map]
  have hcomp : (ResultRec.label ∘ rowToResult) = Row.label := rfl
  rw [hcomp]
  exact nodup_labels_firstPerLabel rows

theorem dedupLoop_of_nodup_labels (rows : List Row) : ∀ (seen : List String),
    (∀ x ∈ rows, seen.contains x.label = false) →
    (rows.map Row.label).Nodup →
    dedupLoop rows seen = rows.map rowToResult := by
  induction rows with
  | nil => intro seen _ _; rfl
  | cons r rs ih =>
    intro seen hseen hnodup
    have hsc : seen.contains r.label = false := hseen r (List.mem_cons_self r rs)
    have hmem : r.label ∉ seen := by simpa using hsc
    have hl : dedupLoop (r :: rs) seen
        = rowToResult r :: dedupLoop rs (r.label :: seen) := by
      simp [dedupLoop, hmem]
    rw [List.map_cons, List.nodup_cons] at hnodup
    have hseen2 : ∀ x ∈ rs, (r.label :: seen).contains x.label = false := by
      intro x hx
      have h1 : x.label ≠ r.label := by
        intro he
        exact hnodup.1 (List.mem_map.mpr ⟨x, hx, he⟩)
      have h2 : x.label ∉ seen := by
        simpa using hseen x (List.mem_cons_of_mem r hx)
      simp [List.contains_cons, h1, h2]
    rw [hl, ih (r.label :: seen) hseen2 hnodup.2, List.map_cons]

theorem rowToResult_toRow (rec : ResultRec) : rowToResult rec.toRow = rec := rfl

theorem uniqueResults_idem (rows : List Row) :
    uniqueResults ((uniqueResults rows).map ResultRec.toRow)
      = uniqueResults rows := by
  have hnodup : ((((uniqueResults rows).map ResultRec.toRow).map Row.label)).Nodup := by
    rw [List.map_map]
    have hcomp : (Row.label ∘ ResultRec.toRow) = ResultRec.label := rfl
    rw [hcomp]
    exact uniqueResults_labels_nodup rows
  have hseen : ∀ x ∈ (uniqueResults rows).map ResultRec.toRow,
      List.contains ([] : List String) x.label = false := by
    intro x _
    rfl
  rw [uniqueResults, dedupLoop_of_nodup_labels _ _ hseen hnodup, List.map_map]
  have hcomp2 : (rowToResult ∘ ResultRec.toRow) = id := funext rowToResult_toRow
  rw [hcomp2, List.map_id]

theorem uniqueResults_ne_nil (r : Row) (rs : List Row) :
    uniqueResults (r :: rs) ≠ [] := by
  have hl : uniqueResults (r :: rs)
      = rowToResult r :: dedupLoop rs [r.label] := by
    simp [uniqueResults, dedupLoop]
  rw [hl]
  exact List.cons_ne_nil _ _

theorem search_some_eq_uniqueResults (env : SearchEnv) (q : String) (lim : Nat)
    (res : List ResultRec)
    (h : search_using_text_with_fts env q lim = Option.some res) :
    ∃ rs, res = uniqueResults rs := by
  unfold search_using_text_with_fts at h
  cases hf : env.fts q lim with
  | none => rw [hf] at h; exact absurd h (by simp)
  | some ftsRes =>
    rw [hf] at h
    simp only at h
    cases hres : (if ftsRes.isEmpty then env.vec q lim else Option.some ftsRes) with
    | none => rw [hres] at h; exact absurd h (by simp)
    | some rs =>
      rw [hres] at h
      simp only at h
      cases hemp : rs.isEmpty with
      | true => rw [hemp] at h; exact absurd h (by simp)
      | false =>
        rw [hemp] at h
        simp at h
        exact ⟨rs, h.symm⟩

/-- C1: for every text query whose full-text search returns an empty result
set without raising, `search_using_text_with_fts` consults the vector search
at the same query and the same result cap before giving up; it returns
`None` exactly when the vector attempt also returns an empty result set, and
it never returns an empty list. -/
theorem C1_fts_empty_falls_back_to_vector (env : SearchEnv) (q : String)
    (lim : Nat) (l : List Row)
    (hfts : env.fts q lim = Option.some [])
    (hvec : env.vec q lim = Option.some l) :
    search_using_text_with_fts env q lim
      = (if l.isEmpty then Option.none else Option.some (uniqueResults l)) ∧
    (search_using_text_with_fts env q lim = Option.none ↔ l = []) ∧
    (∀ res, search_using_text_with_fts env q lim = Option.some res →
      res ≠ []) := by
  have hsearch : search_using_text_with_fts env q lim
      = (if l.isEmpty then Option.none else Option.some (uniqueResults l)) := by
    simp only [search_using_text_with_fts, hfts, hvec, List.isEmpty_nil,
      if_true]
  refine ⟨hsearch, ?_, ?_⟩
  · rw [hsearch]
    cases l with
    | nil => simp
    | cons r rs => simp
  · intro res hres
    rw [hsearch] at hres
    cases l with
    | nil => simp at hres
    | cons r rs =>
      simp at hres
      rw [← hres]
      exact uniqueResults_ne_nil r rs

/-- C1 witness: in a concrete environment whose full-text search is empty
and whose vector search returns one row, the orchestrator returns that
row's record. -/
theorem C1_fts_empty_falls_back_to_vector_witness :
    search_using_text_with_fts c1env "family suv" 6
      = Option.some [rowToResult c1row] := by
  have h := C1_fts_empty_falls_back_to_vector c1env "family suv" 6 [c1row]
    rfl rfl
  rw [h.1]
  decide

/-- C3: the dedup step keeps exactly the first row per label in first-seen
order, the labels of its output (hence of every successful
`search_using_text_with_fts` result) are pairwise distinct, and applying
the dedup step to its own output yields the same list. -/
theorem C3_dedup_first_seen_order_and_idempotent (rows : List Row) :
    uniqueResults rows = (firstPerLabel rows).map rowToResult ∧
    ((uniqueResults rows).map ResultRec.label).Nodup ∧
    uniqueResults ((uniqueResults rows).map ResultRec.toRow)
      = uniqueResults rows ∧
    (∀ env q lim res, search_using_text_with_fts env q lim = Option.some res →
      (res.map ResultRec.label).Nodup) := by
  refine ⟨uniqueResults_eq_firstPerLabel rows, uniqueResults_labels_nodup rows,
    uniqueResults_idem rows, ?_⟩
  intro env q lim res h
  rcases search_some_eq_uniqueResults env q lim res h with ⟨rs, hrs⟩
  rw [hrs]
  exact uniqueResults_labels_nodup rs

/-- C3 witness: a concrete search returning the same row twice yields output
with pairwise-distinct labels. -/
theorem C3_dedup_first_seen_order_and_idempotent_witness :
    ((uniqueResults [c3row, c3row]).map ResultRec.label).Nodup :=
  (C3_dedup_first_seen_order_and_idempotent [c3row, c3row]).2.2.2 c3env
    "swift" 6 (uniqueResults [c3row, c3row]) rfl

theorem is_url_ne_empty {u : String} (h : is_url u = true) : u ≠ "" := by
  intro he
  rw [he] at h
  exact absurd h (by decide)

theorem load_image_str_reduce (env : WebEnv) (u : String) (hne : u ≠ "") :
    load_image_from_url_or_path env (PathInput.str u)
      = load_image_from_str env u := by
  simp [load_image_from_url_or_path, truthy, hne]

theorem is_valid_str_reduce (env : WebEnv) (u : String) (hne : u ≠ "") :
    is_valid_image_path env (PathInput.str u)
      = is_valid_image_path_str env u := by
  simp [is_valid_image_path, truthy, hne]

/-- C4: `load_image_from_url_or_path` handles every raising call inside its
`try` and returns `None` for each of: falsy (missing/empty) input, an empty
collection, a GET request that raises, a non-200 status, fetched bytes that
fail to decode, and a non-existent local file. -/
theorem C4_load_image_returns_none_never_raises (env : WebEnv) :
    (∀ input, truthy input = false →
      load_image_from_url_or_path env input = Option.none) ∧
    load_image_from_url_or_path env (PathInput.coll []) = Option.none ∧
    (∀ u, is_url u = true → env.get u content_fetch_timeout = Option.none →
      load_image_from_url_or_path env (PathInput.str u) = Option.none) ∧
    (∀ u code content, is_url u = true →
      env.get u content_fetch_timeout = Option.some (code, content) →
      code ≠ 200 →
      load_image_from_url_or_path env (PathInput.str u) = Option.none) ∧
    (∀ u content, is_url u = true →
      env.get u content_fetch_timeout = Option.some (200, content) →
      env.decodeBytes content = Option.none →
      load_image_from_url_or_path env (PathInput.str u) = Option.none) ∧
    (∀ p, is_url p = false → env.pathExists p = false →
      load_image_from_url_or_path env (PathInput.str p) = Option.none) := by
  refine ⟨?_, ?_, ?_, ?_, ?_, ?_⟩
  · intro input h
    simp [load_image_from_url_or_path, h]
  · simp [load_image_from_url_or_path, truthy]
  · intro u hu hget
    rw [load_image_str_reduce env u (is_url_ne_empty hu)]
    simp [load_image_from_str, hu, hget]
  · intro u code content hu hget hcode
    rw [load_image_str_reduce env u (is_url_ne_empty hu)]
    simp [load_image_from_str, hu, hget, hcode]
  · intro u content hu hget hdec
    rw [load_image_str_reduce env u (is_url_ne_empty hu)]
    simp [load_image_from_str, hu, hget, hdec]
  · intro p hurl hex
    by_cases hp : p = ""
    · rw [hp]
      simp [load_image_from_url_or_path, truthy]
    · rw [load_image_str_reduce env p hp]
      simp [load_image_from_str, hurl, hex]

/-- C4 witness: in a concrete environment, `None` comes back for a missing
input, an empty collection, a raising GET, a 404 URL, a URL whose body does
not decode, and a missing local file. -/
theorem C4_load_image_returns_none_never_raises_witness :
    load_image_from_url_or_path c45env PathInput.null = Option.none ∧
    load_image_from_url_or_path c45env (PathInput.coll []) = Option.none ∧
    load_image_from_url_or_path c45env (PathInput.str "http://raise/a.jpg")
      = Option.none ∧
    load_image_from_url_or_path c45env (PathInput.str "http://gone/a.jpg")
      = Option.none ∧
    load_image_from_url_or_path c45env (PathInput.str "http://ok/a.jpg")
      = Option.none ∧
    load_image_from_url_or_path c45env (PathInput.str "missing.jpg")
      = Option.none :=
  ⟨(C4_load_image_returns_none_never_raises c45env).1 PathInput.null rfl,
   (C4_load_image_returns_none_never_raises c45env).2.1,
   (C4_load_image_returns_none_never_raises c45env).2.2.1 "http://raise/a.jpg"
     (by decide) (by decide),
   (C4_load_image_returns_none_never_raises c45env).2.2.2.1 "http://gone/a.jpg"
     404 [0] (by decide) (by decide) (by decide),
   (C4_load_image_returns_none_never_raises c45env).2.2.2.2.1 "http://ok/a.jpg"
     [1] (by decide) (by decide) rfl,
   (C4_load_image_returns_none_never_raises c45env).2.2.2.2.2 "missing.jpg"
     (by decide) (by decide)⟩

/-- C5: `is_valid_image_path` rejects falsy input and empty collections,
normalizes a collection to its first element, treats a non-200 probe status
or a raising probe as invalid, rejects a non-existent local path, and
accepts an existing local file. -/
theorem C5_is_valid_image_path_cases (env : WebEnv) :
    is_valid_image_path env PathInput.null = false ∧
    is_valid_image_path env (PathInput.str "") = false ∧
    is_valid_image_path env (PathInput.coll []) = false ∧
    (∀ s rest, is_valid_image_path env (PathInput.coll (s :: rest))
        = is_valid_image_path_str env s) ∧
    (∀ u code, is_url u = true →
      env.head u head_probe_timeout = Option.some code → code ≠ 200 →
      is_valid_image_path env (PathInput.str u) = false) ∧
    (∀ u, is_url u = true → env.head u head_probe_timeout = Option.none →
      is_valid_image_path env (PathInput.str u) = false) ∧
    (∀ p, is_url p = false → env.pathExists p = false →
      is_valid_image_path env (PathInput.str p) = false) ∧
    (∀ p, p ≠ "" → is_url p = false → env.pathExists p = true →
      is_valid_image_path env (PathInput.str p) = true) := by
  refine ⟨?_, ?_, ?_, ?_, ?_, ?_, ?_, ?_⟩
  · rfl
  · rfl
  · rfl
  · intro s rest
    simp [is_valid_image_path, truthy]
  · intro u code hu hhead hcode
    rw [is_valid_str_reduce env u (is_url_ne_empty hu)]
    simp [is_valid_image_path_str, hu, hhead, hcode]
  · intro u hu hhead
    rw [is_valid_str_reduce env u (is_url_ne_empty hu)]
    simp [is_valid_image_path_str, hu, hhead]
  · intro p hurl hex
    by_cases hp : p = ""
    · rw [hp]; rfl
    · rw [is_valid_str_reduce env p hp]
      simp [is_valid_image_path_str, hurl, hex]
  · intro p hp hurl hex
    rw [is_valid_str_reduce env p hp]
    simp [is_valid_image_path_str, hurl, hex]

/-- C5 witness: in a concrete environment, empty input, a 404 URL, a raising
probe and a missing local path are invalid; an existing local file is valid;
a collection is judged by its first element. -/
theorem C5_is_valid_image_path_cases_witness :
    is_valid_image_path c45env (PathInput.str "") = false ∧
    is_valid_image_path c45env (PathInput.str "http://gone/a.jpg") = false ∧
    is_valid_image_path c45env (PathInput.str "http://raise/a.jpg") = false ∧
    is_valid_image_path c45env (PathInput.str "missing.jpg") = false ∧
    is_valid_image_path c45env (PathInput.str "cars/a.jpg") = true ∧
    is_valid_image_path c45env (PathInput.coll ["cars/a.jpg", "x"])
      = is_valid_image_path_str c45env "cars/a.jpg" :=
  ⟨(C5_is_valid_image_path_cases c45env).2.1,
   (C5_is_valid_image_path_cases c45env).2.2.2.2.1 "http://gone/a.jpg" 404
     (by decide) (by decide) (by decide),
   (C5_is_valid_image_path_cases c45env).2.2.2.2.2.1 "http://raise/a.jpg"
     (by decide) (by decide),
   (C5_is_valid_image_path_cases c45env).2.2.2.2.2.2.1 "missing.jpg"
     (by decide) (by decide),
   (C5_is_valid_image_path_cases c45env).2.2.2.2.2.2.2 "cars/a.jpg"
     (by decide) (by decide) (by decide),
   (C5_is_valid_image_path_cases c45env).2.2.2.1 "cars/a.jpg" ["x"]⟩

/-- C2: an HTTP image path whose download succeeds with status 200 and whose
bytes verify is nevertheless never inserted by `process_images_from_csv`,
because the verify-and-append statements sit inside the local-path branch:
the identical row with a local path is verified and inserted. The last two
conjuncts record that the environment really does fetch and decode the HTTP
image successfully. -/
theorem C2_http_image_fetched_but_never_inserted :
    process_images_from_csv c2env [c2rowHttp]
      = { count := 0, added := Option.none, ftsRebuilt := false } ∧
    process_images_from_csv c2env [c2rowLocal]
      = { count := 1, added := Option.some [c2rec], ftsRebuilt := true } ∧
    c2env.get "http://x/a.jpg" image_indexer_fetch_timeout
      = Option.some (200, [1, 2, 3]) ∧
    c2env.verify [1, 2, 3] = true :=
  ⟨by decide, by decide, rfl, rfl⟩

/-- C6: the text indexer produces a record exactly when the comma-split,
trimmed, empty-dropped URL list of the row is non-empty, and that record
carries precisely this list; concretely, a row with
`"http://x/a.jpg, http://x/b.jpg"` yields one record with both URLs, and a
row with an empty `image_url` yields no record. -/
theorem C6_text_indexer_splits_trims_and_skips (row : CsvRow) :
    ((processTextRow row).isSome ↔ split_and_trim row.image_url ≠ []) ∧
    (∀ rec, processTextRow row = Option.some rec →
      rec = { label := row.car_label, car_type := row.car_type,
              fuel_type := row.fuel_type, car_info := row.car_info,
              image_urls := ((pySplit row.image_url ',').map pyStrip).filter
                (fun u => u ≠ "") }) ∧
    process_data_from_csv [c6rowPair]
      = { count := 1, added := Option.some [c6rec],
          vectorIndexAttempted := true, ftsRebuilt := true } ∧
    process_data_from_csv [c6rowEmpty]
      = { count := 0, added := Option.none,
          vectorIndexAttempted := false, ftsRebuilt := false } := by
  refine ⟨?_, ?_, by decide, by decide⟩
  · by_cases h : split_and_trim row.image_url = [] <;>
      simp [processTextRow, h]
  · intro rec hrec
    by_cases h : split_and_trim row.image_url = []
    · simp [processTextRow, h] at hrec
    · simp [processTextRow, h] at hrec
      rw [← hrec]
      simp [split_and_trim]

/-- C6 witness: the two-URL row produces a record. -/
theorem C6_text_indexer_splits_trims_and_skips_witness :
    (processTextRow c6rowPair).isSome :=
  (C6_text_indexer_splits_trims_and_skips c6rowPair).1.mpr (by decide)

/-- C9: when every row of the CSV yields an empty URL list, the text indexer
returns 0 and performs no store interaction: nothing is appended and neither
index is created or rebuilt. -/
theorem C9_all_rows_skipped_leaves_store_untouched (rows : List CsvRow)
    (h : ∀ row ∈ rows, split_and_trim row.image_url = []) :
    process_data_from_csv rows
      = { count := 0, added := Option.none,
          vectorIndexAttempted := false, ftsRebuilt := false } := by
  have hnil : rows.filterMap processTextRow = [] := by
    rw [List.filterMap_eq_nil_iff]
    intro row hrow
    simp [processTextRow, h row hrow]
  simp [process_data_from_csv, hnil]

/-- C9 witness: a CSV whose single row holds only separators and whitespace
is fully skipped. -/
theorem C9_all_rows_skipped_leaves_store_untouched_witness :
    process_data_from_csv [c9row]
      = { count := 0, added := Option.none,
          vectorIndexAttempted := false, ftsRebuilt := false } :=
  C9_all_rows_skipped_leaves_store_untouched [c9row] (by decide)

/-- C7 counterexample: it is not true that every network call of the
application passes the fixed timeout for its method — the image indexer's
download GET passes no timeout at all. -/
theorem C7_counterexample_indexer_get_has_no_timeout :
    ¬ (∀ c ∈ app_network_calls,
        (c.method = Method.head → c.timeout = Option.some 5) ∧
        (c.method = Method.get → c.timeout = Option.some 10)) := by
  intro h
  have hmem : indexer_fetch_call ∈ app_network_calls := by
    simp [app_network_calls]
  have hc := (h indexer_fetch_call hmem).2 rfl
  exact absurd hc (by decide)

/-- C7 amended: the core module's two network calls pass fixed short
timeouts — 5 seconds for the existence-probe HEAD and 10 seconds for the
content-fetch GET — and every call site makes a single attempt; the image
indexer's download GET, however, passes no timeout. -/
theorem C7_core_timeouts_fixed_indexer_get_unbounded :
    probe_call.method = Method.head ∧
    probe_call.timeout = Option.some 5 ∧
    fetch_call.method = Method.get ∧
    fetch_call.timeout = Option.some 10 ∧
    indexer_fetch_call.method = Method.get ∧
    indexer_fetch_call.timeout = Option.none ∧
    app_network_calls.map NetworkCall.attempts = [1, 1, 1] :=
  ⟨rfl, rfl, rfl, rfl, rfl, rfl, rfl⟩

/-- C8: an upload of a supported format whose size exceeds 5MB is rejected
by `validate_image` with the size-limit message, and the image-tab rerun for
that upload performs no store action: the failed validation clears
`uploaded_file`, so the search button is disabled and no search runs. -/
theorem C8_oversized_supported_upload_rejected_before_store
    (f : UploadedFile) (img : ImgData) (save : UploadedFile → Option String)
    (st0 : TabState) (clicked : Bool)
    (hopen : f.opened = Except.ok img)
    (hfmt : supported_formats.contains (pyLower img.format) = true)
    (hsize : f.size > 5 * 1024 * 1024) :
    validate_image f = (false, Option.some size_limit_message) ∧
    tabActions (image_tab_step save (Option.some f) st0 clicked) = [] := by
  have hfm : pyLower img.format ∈ supported_formats := by simpa using hfmt
  have hv : validate_image f = (false, Option.some size_limit_message) := by
    simp [validate_image, hopen, hfm, hsize]
  refine ⟨hv, ?_⟩
  simp [image_tab_step, tabActions, hv]

/-- C8 witness: a 6MB PNG upload is rejected with the size message, and a
rerun with that upload and a clicked search button performs no store
action. -/
theorem C8_oversized_supported_upload_rejected_before_store_witness :
    validate_image c8file = (false, Option.some size_limit_message) ∧
    tabActions (image_tab_step (fun _ => Option.none) (Option.some c8file)
      { temp_image_path := Option.none } true) = [] :=
  C8_oversized_supported_upload_rejected_before_store c8file
    { format := "PNG" } (fun _ => Option.none)
    { temp_image_path := Option.none } true rfl (by decide) (by decide)

theorem validate_image_shape (f : UploadedFile) :
    validate_image f = (true, Option.none) ∨
    ∃ m, validate_image f = (false, Option.some m) := by
  cases hop : f.opened with
  | error e =>
    exact Or.inr ⟨invalid_image_message e, by simp [validate_image, hop]⟩
  | ok img =>
    by_cases h1 : pyLower img.format ∈ supported_formats
    · by_cases h2 : f.size > 5 * 1024 * 1024
      · exact Or.inr ⟨size_limit_message, by simp [validate_image, hop, h1, h2]⟩
      · exact Or.inl (by simp [validate_image, hop, h1, h2])
    · exact Or.inr ⟨unsupported_format_message img.format,
        by simp [validate_image, hop, h1]⟩

/-- C10: `validate_image` is total: it returns a well-formed pair — `true`
with no message, or `false` with a message; a raised open/verify yields the
invalid-file message built from the exception text, and a decodable image of
unsupported format yields the unsupported-format message. -/
theorem C10_validate_image_total_and_classifies (f : UploadedFile) :
    (∀ e, f.opened = Except.error e →
      validate_image f = (false, Option.some (invalid_image_message e))) ∧
    (∀ img, f.opened = Except.ok img →
      supported_formats.contains (pyLower img.format) = false →
      validate_image f
        = (false, Option.some (unsupported_format_message img.format))) ∧
    ((validate_image f).1 = true → (validate_image f).2 = Option.none) ∧
    ((validate_image f).1 = false →
      ∃ m, (validate_image f).2 = Option.some m) := by
  refine ⟨?_, ?_, ?_, ?_⟩
  · intro e he
    simp [validate_image, he]
  · intro img himg hfmt
    have hfm : pyLower img.format ∉ supported_formats := by simpa using hfmt
    simp [validate_image, himg, hfm]
  · intro h
    rcases validate_image_shape f with hv | ⟨m, hv⟩
    · rw [hv]
    · rw [hv] at h
      exact absurd h (by simp)
  · intro h
    rcases validate_image_shape f with hv | ⟨m, hv⟩
    · rw [hv] at h
      exact absurd h (by simp)
    · rw [hv]
      exact ⟨m, rfl⟩

/-- C10 witness: an upload whose open raises gets the invalid-file message,
and a decodable GIF gets the unsupported-format message. -/
theorem C10_validate_image_total_and_classifies_witness :
    validate_image c10bad
      = (false, Option.some (invalid_image_message "cannot identify image file")) ∧
    validate_image c10gif
      = (false, Option.some (unsupported_format_message "GIF")) :=
  ⟨(C10_validate_image_total_and_classifies c10bad).1
      "cannot identify image file" rfl,
   (C10_validate_image_total_and_classifies c10gif).2.1
      { format := "GIF" } rfl (by decide)⟩

end CarSearch
